import Mathlib

/-!
Verification of the entitlement / reminder core of the Hatchling journaling
backend (Sentiment-by-Hatchling).  The Python source is shallowly embedded:
Firestore documents become Lean structures (an `update` call writes only the
named fields, so a record update `{ u with ... }` models it exactly), route
handlers become pure functions over an explicit store, and the notification
transport is a function parameter.  Sources embedded here:

  * `backend/utils/auth.py`            — authentication and permission gates
  * `backend/routes/stripe_webhooks.py` — billing webhook handlers
  * `backend/utils/stripe_client.py`   — `sync_subscription_status` write
  * `backend/routes/nudge.py`          — reminder CRUD and the due scan
-/

/-- Python truthiness of an optional string (`if not x:` is taken for both
`None` and the empty string). -/
def strTruthy : Option String → Bool
  | none => false
  | some s => !(s == "")

/-- A calendar timestamp, the components `datetime.fromisoformat` exposes and
the nudge scheduler manipulates (`year, month, day, hour, minute, second`).
The code stores timestamps as ISO strings and compares them with `<=`; for
well-formed dates that string order is exactly the lexicographic order on
these components. -/
structure DateTime where
  year : Nat
  month : Nat
  day : Nat
  hour : Nat
  minute : Nat
  second : Nat
deriving DecidableEq, Repr

/-- Numeric key realising the lexicographic (= ISO-string) order on dates. -/
def DateTime.key (d : DateTime) : Nat :=
  ((((d.year * 100 + d.month) * 100 + d.day) * 100 + d.hour) * 100 + d.minute) * 100 + d.second

/-- `a <= b` on stored ISO timestamps (Firestore string comparison). -/
def dtLe (a b : DateTime) : Bool :=
  a.key ≤ b.key

/-- A document of the Firestore `users` collection, restricted to the fields
the embedded code reads or writes.  Fields are optional because Firestore
documents are schemaless and the code reads them with `.get(...)` defaults.
`version` stands for any further field of the document (such as the version
counter the spec postulates): a Firestore `update` writes only the fields
named in its argument and leaves every other field untouched. -/
structure UserDoc where
  role : Option String
  permissions : Option String
  subscription_status : Option String
  subscription_id : Option String
  stripe_customer_id : Option String
  phone_number : Option String
  version : Nat
deriving DecidableEq, Repr

/-- The `users` collection: document id paired with the document. -/
abbrev UserStore := List (String × UserDoc)

/-- `db.collection('users').document(uid).get()` — first document with the
given id (Firestore ids are unique). -/
def getUser (store : UserStore) (uid : String) : Option UserDoc :=
  (store.find? (fun p => p.1 == uid)).map (fun p => p.2)

/-- `users_ref.where('stripe_customer_id', '==', c).limit(1).get()`. -/
def findByCustomer (store : UserStore) (c : Option String) : Option (String × UserDoc) :=
  store.find? (fun p => p.2.stripe_customer_id == c)

/-- `users_ref.document(uid).update(...)` with update function `f`. -/
def updateUser (store : UserStore) (uid : String) (f : UserDoc → UserDoc) : UserStore :=
  store.map (fun p => if p.1 == uid then (p.1, f p.2) else p)

/-- A document of the `nudges` collection (`routes/nudge.py`), fields as
created by `create_nudge` and manipulated by `process_nudges`.  As for users,
`version` stands for any extra document field, which `update` leaves alone. -/
structure Nudge where
  user_id : String
  message : String
  schedule_time : DateTime
  rpt : String
  active : Bool
  last_sent : Option DateTime
  next_send : Option DateTime
  version : Nat
deriving DecidableEq, Repr

/-- `nudges` collection. -/
abbrev NudgeStore := List (String × Nudge)

/-! ### Recurrence computation of `process_nudges` (`routes/nudge.py` 335–398) -/

/-- The leap-year test written inline in the February clamp branch:
`next_year % 4 == 0 and (next_year % 100 != 0 or next_year % 400 == 0)`. -/
def isLeap (y : Nat) : Bool :=
  y % 4 == 0 && (y % 100 != 0 || y % 400 == 0)

/-- Number of days of a month in the proleptic Gregorian calendar; this is
the validity bound `datetime(...)` enforces (a larger `day` raises
`ValueError`). -/
def daysInMonth (y m : Nat) : Nat :=
  if m == 2 then (if isLeap y then 29 else 28)
  else if m == 4 || m == 6 || m == 9 || m == 11 then 30
  else 31

/-- Step a date to the next calendar day (used to embed `timedelta` addition
on `datetime.now()`). -/
def nextDay (d : DateTime) : DateTime :=
  if d.day < daysInMonth d.year d.month then
    { d with day := d.day + 1 }
  else if d.month < 12 then
    { d with month := d.month + 1, day := 1 }
  else
    { d with year := d.year + 1, month := 1, day := 1 }

/-- `now + timedelta(days=n)`. -/
def addDays (d : DateTime) : Nat → DateTime
  | 0 => d
  | n + 1 => nextDay (addDays d n)

/-- `.replace(hour=schedule_time.hour, minute=..., second=...)`. -/
def withTimeOf (schedule d : DateTime) : DateTime :=
  { d with hour := schedule.hour, minute := schedule.minute, second := schedule.second }

/-- The monthly branch of `process_nudges` (`routes/nudge.py` 359–392):
target month is the **reference**'s month + 1 (year rolls over from
December); the anchor's day-of-month is kept when it exists in the target
month (`datetime(...)` succeeds) and otherwise replaced by the code's
explicit last-day computation. -/
def monthlyNext (schedule now : DateTime) : DateTime :=
  let next_month := if now.month < 12 then now.month + 1 else 1
  let next_year := if now.month == 12 then now.year + 1 else now.year
  if schedule.day ≤ daysInMonth next_year next_month then
    ⟨next_year, next_month, schedule.day, schedule.hour, schedule.minute, schedule.second⟩
  else
    let last_day :=
      if next_month == 2 then (if isLeap next_year then 29 else 28)
      else if next_month == 4 || next_month == 6 || next_month == 9 || next_month == 11 then 30
      else 31
    ⟨next_year, next_month, last_day, schedule.hour, schedule.minute, schedule.second⟩

/-- The `next_send` computation of the non-`none` repeat branch of
`process_nudges` (`routes/nudge.py` 345–392).  Returns `none` for a repeat
value outside the recognised patterns (then the code stores `next_send =
None`). -/
def nextOccurrence (schedule : DateTime) (rpt : String) (now : DateTime) : Option DateTime :=
  if rpt == "daily" then some (withTimeOf schedule (addDays now 1))
  else if rpt == "weekly" then some (withTimeOf schedule (addDays now 7))
  else if rpt == "monthly" then some (monthlyNext schedule now)
  else none

/-! ### The due scan (`routes/nudge.py` 285–426) -/

/-- The due query `where('active','==',True).where('next_send','<=',now)`
(`routes/nudge.py` 307).  A `next_send` of `None` is not a string and is
never matched by the `<=` filter. -/
def isDue (now : DateTime) (n : Nudge) : Bool :=
  n.active && (match n.next_send with
    | some t => dtLe t now
    | none => false)

/-- All nudges returned by the due query. -/
def findDue (nudges : NudgeStore) (now : DateTime) : NudgeStore :=
  nudges.filter (fun p => isDue now p.2)

/-- What happened to one due nudge inside the scan loop. -/
inductive NudgeStepOutcome
  | skippedNoUser
  | skippedNoPhone
  | dryRun
  | dispatched (ok : Bool)
deriving DecidableEq, Repr

/-- One iteration of the `process_nudges` loop (`routes/nudge.py` 314–409)
for a due nudge `n`: look the owning user up, skip when the user document is
missing or has no phone number, otherwise **first** write the new reminder
state (deactivation for `repeat == 'none'`, else `last_sent`/`next_send`)
and only then call `send_sms`.  `send phone message` is the transport
(`result.get('success')` of `send_sms`).  The returned nudge is the stored
document after the iteration. -/
def processNudge (users : UserStore) (send : String → String → Bool)
    (dry_run : Bool) (now : DateTime) (n : Nudge) : Nudge × NudgeStepOutcome :=
  match getUser users n.user_id with
  | none => (n, .skippedNoUser)
  | some u =>
    if strTruthy u.phone_number then
      let phone := u.phone_number.getD ""
      let n1 :=
        if n.rpt == "none" then
          { n with active := false, last_sent := some now }
        else
          { n with last_sent := some now, next_send := nextOccurrence n.schedule_time n.rpt now }
      if dry_run then (n1, .dryRun)
      else (n1, .dispatched (send phone n.message))
    else (n, .skippedNoPhone)

/-! ### Authentication and gates (`utils/auth.py`) -/

/-- The user context `get_user_permissions` builds and `authenticate` stores
in `g.user` (`utils/auth.py` 49–74). -/
structure UserContext where
  user_id : String
  role : String
  permissions : String
  subscription_status : String
deriving DecidableEq, Repr

/-- The dictionary `get_user_permissions` returns for an existing user
document (`utils/auth.py` 62–70): role, permissions and status with their
`.get` defaults. -/
def mkUserContext (uid : String) (u : UserDoc) : UserContext :=
  ⟨uid, u.role.getD "user", u.permissions.getD "read_only",
   u.subscription_status.getD "none"⟩

/-- `get_user_permissions` (`utils/auth.py` 49–74): `None` for a falsy id or
a missing document, otherwise the context of the document. -/
def get_user_permissions (store : UserStore) (uid : String) : Option UserContext :=
  if uid == "" then none
  else
    match getUser store uid with
    | none => none
    | some u => some (mkUserContext uid u)

/-- The request headers `authenticate` consults. -/
structure HttpRequest where
  authorization : Option String
  xUserId : Option String
deriving DecidableEq, Repr

/-- `get_token_from_request` (`utils/auth.py` 17–22): the second
space-separated piece of an `Authorization` header starting with
`Bearer `. -/
def get_token_from_request (r : HttpRequest) : Option String :=
  match r.authorization with
  | none => none
  | some h =>
    if h.startsWith "Bearer " then
      match h.splitOn " " with
      | _ :: t :: _ => some t
      | _ => none
    else none

/-- Result of the `authenticate` decorator: either the wrapped handler runs
with the given `g.user` context, or the request is rejected with 401. -/
inductive AuthOutcome
  | ok (ctx : UserContext)
  | unauthorized
deriving DecidableEq, Repr

/-- The `authenticate` decorator (`utils/auth.py` 76–102).  `verify` embeds
`verify_token` composed with `payload.get('user_id')`: for a token it yields
`none` when verification fails and otherwise `some` of the payload's
(optional) `user_id`.  A present, truthy token that verifies replaces the
`X-User-ID` header value; otherwise the header value is kept. -/
def authenticate (verify : String → Option (Option String)) (store : UserStore)
    (r : HttpRequest) : AuthOutcome :=
  let headerUid := r.xUserId
  let uid :=
    match get_token_from_request r with
    | some t =>
      if t == "" then headerUid
      else
        match verify t with
        | some payloadUid => payloadUid
        | none => headerUid
    | none => headerUid
  match uid with
  | some u =>
    if u == "" then .unauthorized
    else
      match get_user_permissions store u with
      | some ctx => .ok ctx
      | none => .unauthorized
  | none => .unauthorized

/-- The permission check of `require_permissions(required)` applied to an
authenticated context (`utils/auth.py` 104–130): admin role or `full`
permissions pass, `read_only` passes only a `read_only` requirement. -/
def require_permissions_check (required : String) (ctx : UserContext) : Bool :=
  if ctx.role == "admin" then true
  else if ctx.permissions == "full" then true
  else if ctx.permissions == "read_only" && required == "read_only" then true
  else false

/-- The check of the `check_subscription_status` decorator
(`utils/auth.py` 170–193): admin bypasses; otherwise only the statuses
`active` and `trialing` pass (anything else is answered 402). -/
def check_subscription_status_check (ctx : UserContext) : Bool :=
  if ctx.role == "admin" then true
  else ctx.subscription_status == "active" || ctx.subscription_status == "trialing"

/-- The gate on creating, updating and deleting a nudge: those routes are
wrapped `@authenticate @check_subscription_status`
(`routes/nudge.py` 17–20, 167–169, 253–255); the same decorator gates entry
creation, update and deletion (`routes/entry.py` 21–22, 243–244, 343–344,
384–385). -/
def reminderWriteAllowed (ctx : UserContext) : Bool :=
  check_subscription_status_check ctx

/-! ### Billing webhooks (`routes/stripe_webhooks.py`) -/

/-- Field update of `handle_trial_ending` (`routes/stripe_webhooks.py`
84–87): status `trial_ending`, subscription id from the event's `id`. -/
def handle_trial_ending_update (sid : Option String) (u : UserDoc) : UserDoc :=
  { u with subscription_status := some "trial_ending", subscription_id := sid }

/-- Field update of `handle_payment_succeeded` (`routes/stripe_webhooks.py`
128–131): status `active`, subscription id from the event. -/
def handle_payment_succeeded_update (sid : Option String) (u : UserDoc) : UserDoc :=
  { u with subscription_status := some "active", subscription_id := sid }

/-- Field update of `handle_payment_failed` (`routes/stripe_webhooks.py`
170–184): status `payment_failed`, or `payment_failed_final` together with a
downgrade of `permissions` to `read_only` from the third attempt on. -/
def handle_payment_failed_update (sid : Option String) (attempt_count : Int)
    (u : UserDoc) : UserDoc :=
  if 3 ≤ attempt_count then
    { u with subscription_status := some "payment_failed_final", subscription_id := sid,
             permissions := some "read_only" }
  else
    { u with subscription_status := some "payment_failed", subscription_id := sid }

/-- HTTP answer of a webhook handler, reduced to its JSON `status`:
`success uid` (200), `ignored` (200 for a non-subscription invoice or an
unhandled event type), `notFound` (404 when no user carries the customer
id). -/
inductive WebhookOutcome
  | success (uid : String)
  | ignored
  | notFound
deriving DecidableEq, Repr

/-- The common shape of the three webhook handlers: find the user by Stripe
customer id (404 when absent) and write the handler's field update to the
found document. -/
def findAndUpdate (store : UserStore) (customer : Option String)
    (f : UserDoc → UserDoc) : UserStore × WebhookOutcome :=
  match findByCustomer store customer with
  | none => (store, .notFound)
  | some q => (updateUser store q.1 f, .success q.1)

/-- `handle_trial_ending` (`routes/stripe_webhooks.py` 63–102): find the
user by Stripe customer id and write the update; there is no check of the
record's current status. -/
def handle_trial_ending (store : UserStore) (customer sid : Option String) :
    UserStore × WebhookOutcome :=
  findAndUpdate store customer (handle_trial_ending_update sid)

/-- `handle_payment_succeeded` (`routes/stripe_webhooks.py` 104–144): a
falsy subscription id is ignored without touching the store; otherwise find
the user by customer id and write the update, with no precondition on the
current status. -/
def handle_payment_succeeded (store : UserStore) (customer subscription : Option String) :
    UserStore × WebhookOutcome :=
  if strTruthy subscription then
    findAndUpdate store customer (handle_payment_succeeded_update subscription)
  else (store, .ignored)

/-- `handle_payment_failed` (`routes/stripe_webhooks.py` 146–200): a falsy
subscription id is ignored without touching the store; otherwise find the
user by customer id and write the update, with no precondition on the
current status. -/
def handle_payment_failed (store : UserStore) (customer subscription : Option String)
    (attempt_count : Int) : UserStore × WebhookOutcome :=
  if strTruthy subscription then
    findAndUpdate store customer (handle_payment_failed_update subscription attempt_count)
  else (store, .ignored)

/-- A verified Stripe event as the `webhook` dispatcher sees it
(`routes/stripe_webhooks.py` 45–61), reduced to the fields the handlers
read. -/
inductive StripeEvent
  | trialWillEnd (customer id : Option String)
  | paymentSucceeded (customer subscription : Option String)
  | paymentFailed (customer subscription : Option String) (attempt_count : Int)
  | unhandled
deriving DecidableEq, Repr

/-- The `webhook` dispatch (`routes/stripe_webhooks.py` 52–61) applied to
the user store: every other event type is answered `ignored`. -/
def applyEvent (store : UserStore) : StripeEvent → UserStore × WebhookOutcome
  | .trialWillEnd customer id => handle_trial_ending store customer id
  | .paymentSucceeded customer subscription => handle_payment_succeeded store customer subscription
  | .paymentFailed customer subscription attempt_count =>
      handle_payment_failed store customer subscription attempt_count
  | .unhandled => (store, .ignored)

/-! ### `sync_subscription_status` (`utils/stripe_client.py` 349–414) -/

/-- The permissions recomputation of `sync_subscription_status`
(`utils/stripe_client.py` 394–397): `full` exactly for `trialing` and
`active`. -/
def sync_permissions (status : String) : String :=
  if status == "trialing" || status == "active" then "full" else "read_only"

/-- The user-record write of `sync_subscription_status` when a subscription
exists (`utils/stripe_client.py` 399–404). -/
def sync_subscription_status_update (status : String) (sid : Option String)
    (u : UserDoc) : UserDoc :=
  { u with subscription_status := some status, subscription_id := sid,
           permissions := some (sync_permissions status) }

/-! ### Concrete records used by the witnesses and counterexamples -/

/-- A paying user in good standing. -/
def demoUser : UserDoc :=
  { role := some "user", permissions := some "full",
    subscription_status := some "active", subscription_id := some "sub_1",
    stripe_customer_id := some "cus_1", phone_number := some "+15551234567",
    version := 5 }

/-- A store holding only `demoUser` under document id `u1`. -/
def demoStore : UserStore := [("u1", demoUser)]

/-- A user downgraded to read-only after a final payment failure. -/
def demoReadOnlyUser : UserDoc :=
  { role := some "user", permissions := some "read_only",
    subscription_status := some "payment_failed_final", subscription_id := some "sub_8",
    stripe_customer_id := some "cus_2", phone_number := some "+15550000000",
    version := 3 }

/-- A store holding only `demoReadOnlyUser` under document id `u2`. -/
def demoStore2 : UserStore := [("u2", demoReadOnlyUser)]

/-- A user whose subscription was cancelled. -/
def demoCancelled : UserDoc :=
  { role := some "user", permissions := some "read_only",
    subscription_status := some "cancelled", subscription_id := none,
    stripe_customer_id := some "cus_3", phone_number := none,
    version := 1 }

/-- A store holding only `demoCancelled` under document id `u3`. -/
def demoStore3 : UserStore := [("u3", demoCancelled)]

/-- The scan instant for the scheduler examples. -/
def demoNow : DateTime := ⟨2025, 4, 16, 20, 30, 0⟩

/-- A due daily reminder of `u1`. -/
def demoDaily : Nudge :=
  { user_id := "u1", message := "Time to add a memory to your Hatchling journal!",
    schedule_time := ⟨2025, 4, 1, 20, 0, 0⟩, rpt := "daily", active := true,
    last_sent := none, next_send := some ⟨2025, 4, 16, 20, 0, 0⟩, version := 7 }

/-- A due daily reminder of the read-only user `u2`. -/
def demoDaily2 : Nudge :=
  { user_id := "u2", message := "Time to add a memory to your Hatchling journal!",
    schedule_time := ⟨2025, 4, 1, 20, 0, 0⟩, rpt := "daily", active := true,
    last_sent := none, next_send := some ⟨2025, 4, 16, 20, 0, 0⟩, version := 4 }

/-- A due one-time reminder of `u1`. -/
def demoOnce : Nudge :=
  { user_id := "u1", message := "One-time reminder",
    schedule_time := ⟨2025, 4, 10, 9, 0, 0⟩, rpt := "none", active := true,
    last_sent := none, next_send := some ⟨2025, 4, 16, 9, 0, 0⟩, version := 2 }

/-- A request carrying an invalid bearer token and an `X-User-ID` header. -/
def demoReq : HttpRequest := ⟨some "Bearer not-a-valid-token", some "u1"⟩

/-! ### Helper lemmas -/

/-- `List.find?` commutes with a map that does not change the predicate's
value on any entry. -/
theorem find_map_pred {α : Type} (g : α → α) (q : α → Bool)
    (hq : ∀ a, q (g a) = q a) (l : List α) :
    (l.map g).find? q = (l.find? q).map g := by
  induction l with
  | nil => rfl
  | cons a t ih =>
    by_cases h : q a
    · rw [List.map_cons, List.find?_cons_of_pos _ (by rw [hq]; exact h),
          List.find?_cons_of_pos _ h]
      rfl
    · rw [List.map_cons, List.find?_cons_of_neg _ (by rw [hq]; simpa using h),
          List.find?_cons_of_neg _ (by simpa using h), ih]

/-- The customer query is unaffected by an update that preserves the
`stripe_customer_id` field. -/
theorem findByCustomer_updateUser (s : UserStore) (uid : String)
    (f : UserDoc → UserDoc) (c : Option String)
    (hf : ∀ u, (f u).stripe_customer_id = u.stripe_customer_id) :
    findByCustomer (updateUser s uid f) c
      = (findByCustomer s c).map (fun p => if p.1 == uid then (p.1, f p.2) else p) := by
  unfold findByCustomer updateUser
  apply find_map_pred
  intro a
  by_cases h : a.1 == uid <;> simp [h, hf]

/-- Two successive updates of the same document compose. -/
theorem updateUser_comp (s : UserStore) (uid : String) (f g : UserDoc → UserDoc) :
    updateUser (updateUser s uid f) uid g = updateUser s uid (fun u => g (f u)) := by
  unfold updateUser
  rw [List.map_map]
  congr 1
  funext p
  by_cases h : p.1 == uid <;> simp [Function.comp, h]

/-- Pointwise equal update functions write the same store. -/
theorem updateUser_ext (s : UserStore) (uid : String) (f g : UserDoc → UserDoc)
    (h : ∀ u, f u = g u) : updateUser s uid f = updateUser s uid g := by
  unfold updateUser
  congr 1
  funext p
  by_cases hp : p.1 == uid <;> simp [hp, h]

/-- A find-and-update with an idempotent, customer-preserving field update
stores the same collection when run twice. -/
theorem findAndUpdate_idem (s : UserStore) (c : Option String) (f : UserDoc → UserDoc)
    (hc : ∀ u, (f u).stripe_customer_id = u.stripe_customer_id)
    (hi : ∀ u, f (f u) = f u) :
    (findAndUpdate (findAndUpdate s c f).1 c f).1 = (findAndUpdate s c f).1 := by
  unfold findAndUpdate
  cases hfind : findByCustomer s c with
  | none => simp [hfind]
  | some q =>
    simp only
    rw [findByCustomer_updateUser _ _ _ _ hc, hfind]
    simp only [Option.map_some', if_pos (beq_self_eq_true q.1)]
    rw [updateUser_comp]
    exact updateUser_ext _ _ _ _ hi

/-- The trial-ending field update sets fixed values, so it is idempotent. -/
theorem handle_trial_ending_update_idem (sid : Option String) (u : UserDoc) :
    handle_trial_ending_update sid (handle_trial_ending_update sid u)
      = handle_trial_ending_update sid u := rfl

/-- The payment-succeeded field update sets fixed values, so it is
idempotent. -/
theorem handle_payment_succeeded_update_idem (sid : Option String) (u : UserDoc) :
    handle_payment_succeeded_update sid (handle_payment_succeeded_update sid u)
      = handle_payment_succeeded_update sid u := rfl

/-- The payment-failed field update branches only on the event's attempt
count, so it is idempotent. -/
theorem handle_payment_failed_update_idem (sid : Option String) (a : Int) (u : UserDoc) :
    handle_payment_failed_update sid a (handle_payment_failed_update sid a u)
      = handle_payment_failed_update sid a u := by
  unfold handle_payment_failed_update
  by_cases h : (3 : Int) ≤ a <;> simp [h]

/-- None of the webhook field updates writes `stripe_customer_id`. -/
theorem handle_payment_failed_update_customer (sid : Option String) (a : Int) (u : UserDoc) :
    (handle_payment_failed_update sid a u).stripe_customer_id = u.stripe_customer_id := by
  unfold handle_payment_failed_update
  by_cases h : (3 : Int) ≤ a <;> simp [h]

/-! ### Claim theorems -/

/-- C7: replaying any billing event (trial_will_end, payment_succeeded,
payment_failed) a second time against the user store produced by its first
application leaves that store unchanged — the webhook handlers are
idempotent on the stored user records. -/
theorem applyEvent_idempotent (s : UserStore) (e : StripeEvent) :
    (applyEvent (applyEvent s e).1 e).1 = (applyEvent s e).1 := by
  cases e with
  | unhandled => rfl
  | trialWillEnd c id =>
    exact findAndUpdate_idem s c _ (fun u => rfl) (fun u => handle_trial_ending_update_idem id u)
  | paymentSucceeded c sub =>
    by_cases h : strTruthy sub
    · simp only [applyEvent, handle_payment_succeeded, h, if_true]
      exact findAndUpdate_idem s c _ (fun u => rfl)
        (fun u => handle_payment_succeeded_update_idem sub u)
    · simp [applyEvent, handle_payment_succeeded, h]
  | paymentFailed c sub a =>
    by_cases h : strTruthy sub
    · simp only [applyEvent, handle_payment_failed, h, if_true]
      exact findAndUpdate_idem s c _
        (fun u => handle_payment_failed_update_customer sub a u)
        (fun u => handle_payment_failed_update_idem sub a u)
    · simp [applyEvent, handle_payment_failed, h]

/-- C3 counterexample: a `PaymentFailed` event arriving while the stored
status is `cancelled` is **not** ignored — the handler reports success and
rewrites the record's status to `payment_failed`, so the transition applies
the event's effect although the spec's precondition (status ∈ {active,
past_due}) fails. -/
theorem paymentFailed_applies_to_cancelled_cx :
    demoCancelled.subscription_status = some "cancelled"
    ∧ (handle_payment_failed demoStore3 (some "cus_3") (some "sub_9") 1).2
        = .success "u3"
    ∧ (handle_payment_failed demoStore3 (some "cus_3") (some "sub_9") 1).1 ≠ demoStore3
    ∧ getUser (handle_payment_failed demoStore3 (some "cus_3") (some "sub_9") 1).1 "u3"
        = some { demoCancelled with
                 subscription_status := some "payment_failed",
                 subscription_id := some "sub_9" } := by
  refine ⟨rfl, by decide, by decide, by decide⟩

/-- C3 amended: the webhook handlers check no precondition on the stored
status.  `handle_payment_failed` leaves the store untouched only for a falsy
subscription id (outcome `ignored`) or an unknown customer (outcome 404);
for any matched user it unconditionally writes the payment-failed update,
whatever the record's current status. -/
theorem handle_payment_failed_no_precondition (s : UserStore) (c : Option String)
    (sid : String) (a : Int) (hsid : sid ≠ "") :
    handle_payment_failed s c none a = (s, .ignored)
    ∧ (findByCustomer s c = none → handle_payment_failed s c (some sid) a = (s, .notFound))
    ∧ (∀ uid u, findByCustomer s c = some (uid, u) →
        handle_payment_failed s c (some sid) a
          = (updateUser s uid (handle_payment_failed_update (some sid) a), .success uid)) := by
  have htr : strTruthy (some sid) = true := by
    simp [strTruthy, hsid]
  refine ⟨rfl, ?_, ?_⟩
  · intro hfind
    simp [handle_payment_failed, htr, findAndUpdate, hfind]
  · intro uid u hfind
    simp [handle_payment_failed, htr, findAndUpdate, hfind]

/-- C3 witness: the amended theorem applied to the cancelled demo user. -/
theorem handle_payment_failed_no_precondition_witness :
    handle_payment_failed demoStore3 (some "cus_3") (some "sub_9") 1
      = (updateUser demoStore3 "u3" (handle_payment_failed_update (some "sub_9") 1),
         .success "u3") :=
  (handle_payment_failed_no_precondition demoStore3 (some "cus_3") "sub_9" 1
      (by decide)).2.2 "u3" demoCancelled (by decide)

/-- C4 counterexample: for an anchor of Jan 31 and reference Feb 1 the code
targets the month **after the reference** — March — and, day 31 being valid
there, returns Mar 31 at the anchor's time-of-day, not Feb 28 (non-leap
2025) and not Feb 29 (leap 2024). -/
theorem monthly_feb_reference_cx :
    nextOccurrence ⟨2025, 1, 31, 9, 0, 0⟩ "monthly" ⟨2025, 2, 1, 0, 0, 0⟩
      = some ⟨2025, 3, 31, 9, 0, 0⟩
    ∧ nextOccurrence ⟨2025, 1, 31, 9, 0, 0⟩ "monthly" ⟨2025, 2, 1, 0, 0, 0⟩
        ≠ some ⟨2025, 2, 28, 9, 0, 0⟩
    ∧ nextOccurrence ⟨2024, 1, 31, 9, 0, 0⟩ "monthly" ⟨2024, 2, 1, 0, 0, 0⟩
        = some ⟨2024, 3, 31, 9, 0, 0⟩
    ∧ nextOccurrence ⟨2024, 1, 31, 9, 0, 0⟩ "monthly" ⟨2024, 2, 1, 0, 0, 0⟩
        ≠ some ⟨2024, 2, 29, 9, 0, 0⟩ := by
  refine ⟨by decide, by decide, by decide, by decide⟩

/-- C4 amended: the target month of the monthly rule is the reference's
month **plus one**.  For a day-31 anchor the February clamp therefore occurs
for a **January** reference: the result is Feb 28 (Feb 29 in a leap year,
by the code's inline leap test) at the anchor's time-of-day; a February
reference instead yields Mar 31. -/
theorem monthly_clamp_from_january (sch now : DateTime) (hd : sch.day = 31) :
    (now.month = 1 → monthlyNext sch now
        = ⟨now.year, 2, if isLeap now.year then 29 else 28,
           sch.hour, sch.minute, sch.second⟩)
    ∧ (now.month = 2 → monthlyNext sch now
        = ⟨now.year, 3, 31, sch.hour, sch.minute, sch.second⟩) := by
  constructor
  · intro hm
    unfold monthlyNext
    rw [hm, hd]
    by_cases hl : isLeap now.year <;> simp [daysInMonth, hl]
  · intro hm
    unfold monthlyNext
    rw [hm, hd]
    simp [daysInMonth]

/-- C4 witness: the amended theorem at a non-leap and a leap January
reference, with a Jan 31 anchor at 09:00. -/
theorem monthly_clamp_from_january_witness :
    monthlyNext ⟨2025, 1, 31, 9, 0, 0⟩ ⟨2025, 1, 15, 8, 0, 0⟩ = ⟨2025, 2, 28, 9, 0, 0⟩
    ∧ monthlyNext ⟨2024, 1, 31, 9, 0, 0⟩ ⟨2024, 1, 15, 8, 0, 0⟩ = ⟨2024, 2, 29, 9, 0, 0⟩ := by
  constructor
  · rw [(monthly_clamp_from_january ⟨2025, 1, 31, 9, 0, 0⟩ ⟨2025, 1, 15, 8, 0, 0⟩ rfl).1 rfl]
    decide
  · rw [(monthly_clamp_from_january ⟨2024, 1, 31, 9, 0, 0⟩ ⟨2024, 1, 15, 8, 0, 0⟩ rfl).1 rfl]
    decide

/-- C2 counterexample: a due daily reminder whose dispatch **fails** still
has its `next_send` advanced to the next day (the scan writes the new state
before calling the transport), so its state is not left unchanged and it is
no longer due. -/
theorem dispatch_failure_still_reschedules_cx :
    isDue demoNow demoDaily = true
    ∧ (processNudge demoStore (fun _ _ => false) false demoNow demoDaily).2
        = .dispatched false
    ∧ (processNudge demoStore (fun _ _ => false) false demoNow demoDaily).1.next_send
        = some ⟨2025, 4, 17, 20, 0, 0⟩
    ∧ (processNudge demoStore (fun _ _ => false) false demoNow demoDaily).1.next_send
        ≠ demoDaily.next_send
    ∧ isDue demoNow (processNudge demoStore (fun _ _ => false) false demoNow demoDaily).1
        = false := by
  refine ⟨by decide, by decide, by decide, by decide, by decide⟩

/-- C2 amended: the scan writes the reminder's new state (deactivation for
`repeat = none`, advanced `next_send` otherwise) **before** dispatching, so
the stored reminder after the iteration is the same whatever the transport
answers — a dispatch failure is only counted in the scan's error list and
the reminder is not retried. -/
theorem nudge_state_independent_of_dispatch (users : UserStore)
    (send send2 : String → String → Bool) (dry : Bool) (now : DateTime) (n : Nudge) :
    (processNudge users send dry now n).1 = (processNudge users send2 dry now n).1 := by
  unfold processNudge
  cases getUser users n.user_id with
  | none => rfl
  | some u =>
    by_cases hp : strTruthy u.phone_number <;> by_cases hd : dry <;> simp [hp, hd]

/-- C5 counterexample: a due reminder whose owner was downgraded to
read-only after a final payment failure (no `write` capability under either
gate) is **not** skipped: the scan dispatches the notification and rewrites
the reminder. -/
theorem scan_has_no_capability_check_cx :
    require_permissions_check "full" (mkUserContext "u2" demoReadOnlyUser) = false
    ∧ check_subscription_status_check (mkUserContext "u2" demoReadOnlyUser) = false
    ∧ isDue demoNow demoDaily2 = true
    ∧ (processNudge demoStore2 (fun _ _ => true) false demoNow demoDaily2).2
        = .dispatched true
    ∧ (processNudge demoStore2 (fun _ _ => true) false demoNow demoDaily2).1
        ≠ demoDaily2 := by
  refine ⟨by decide, by decide, by decide, by decide, by decide⟩

/-- C5 amended: the scan consults no permission gate.  It skips a due
reminder — leaving it untouched — exactly when the owning user document is
missing or has no (truthy) phone number; whenever the owner exists and has a
phone number the notification is dispatched, whatever the owner's
permissions or subscription status. -/
theorem scan_skips_only_missing_user_or_phone (users : UserStore)
    (send : String → String → Bool) (now : DateTime) (n : Nudge) (u : UserDoc)
    (p : String) (hu : getUser users n.user_id = some u)
    (hp : u.phone_number = some p) (hne : p ≠ "") :
    (processNudge users send false now n).2 = .dispatched (send p n.message)
    ∧ (∀ m : Nudge, getUser users m.user_id = none →
        processNudge users send false now m = (m, .skippedNoUser))
    ∧ (∀ m : Nudge, ∀ v : UserDoc, getUser users m.user_id = some v →
        strTruthy v.phone_number = false →
        processNudge users send false now m = (m, .skippedNoPhone)) := by
  refine ⟨?_, ?_, ?_⟩
  · have htr : strTruthy u.phone_number = true := by
      rw [hp]; simp [strTruthy, hne]
    unfold processNudge
    rw [hu]
    simp only [htr, if_true, Bool.false_eq_true, if_false]
    have hgd : u.phone_number.getD "" = p := by rw [hp]; rfl
    rw [hgd]
  · intro m hm
    unfold processNudge
    rw [hm]
  · intro m v hm hph
    unfold processNudge
    rw [hm]
    simp [hph]

/-- C5 witness: the amended theorem at the read-only demo user, whose due
reminder is dispatched. -/
theorem scan_skips_only_missing_user_or_phone_witness :
    (processNudge demoStore2 (fun _ _ => true) false demoNow demoDaily2).2
      = .dispatched true :=
  (scan_skips_only_missing_user_or_phone demoStore2 (fun _ _ => true) demoNow demoDaily2
      demoReadOnlyUser "+15550000000" (by decide) (by decide) (by decide)).1

/-- C6 counterexample: after a successful dispatch of a one-time reminder
the stored record has `active = false` but `next_send` keeps its old value —
the deactivation update writes only `active` and `last_sent`, it does not
null `next_send`. -/
theorem one_shot_keeps_next_send_cx :
    demoOnce.rpt = "none"
    ∧ (processNudge demoStore (fun _ _ => true) false demoNow demoOnce).2
        = .dispatched true
    ∧ (processNudge demoStore (fun _ _ => true) false demoNow demoOnce).1.active = false
    ∧ (processNudge demoStore (fun _ _ => true) false demoNow demoOnce).1.next_send
        = some ⟨2025, 4, 16, 9, 0, 0⟩
    ∧ (processNudge demoStore (fun _ _ => true) false demoNow demoOnce).1.next_send
        ≠ none := by
  refine ⟨rfl, by decide, by decide, by decide, by decide⟩

/-- C6 amended: a dispatched `repeat = none` reminder is stored with
`active = false` and `last_sent` set; `next_send` keeps its prior value
(it is **not** set to null), and since the find-due query requires
`active = true` the reminder is never returned by it again. -/
theorem one_shot_deactivated_after_dispatch (users : UserStore)
    (send : String → String → Bool) (now : DateTime) (n : Nudge) (u : UserDoc)
    (p : String) (hr : n.rpt = "none") (hu : getUser users n.user_id = some u)
    (hp : u.phone_number = some p) (hne : p ≠ "") :
    processNudge users send false now n
      = ({ n with active := false, last_sent := some now },
         .dispatched (send p n.message))
    ∧ ({ n with active := false, last_sent := some now } : Nudge).next_send = n.next_send
    ∧ (∀ t : DateTime, isDue t { n with active := false, last_sent := some now } = false) := by
  refine ⟨?_, rfl, ?_⟩
  · have htr : strTruthy u.phone_number = true := by
      rw [hp]; simp [strTruthy, hne]
    have hgd : u.phone_number.getD "" = p := by rw [hp]; rfl
    unfold processNudge
    rw [hu]
    simp [htr, hgd, hr]
  · intro t
    simp [isDue]

/-- C6 witness: the amended theorem at the demo one-time reminder. -/
theorem one_shot_deactivated_after_dispatch_witness :
    processNudge demoStore (fun _ _ => true) false demoNow demoOnce
      = ({ demoOnce with active := false, last_sent := some demoNow },
         .dispatched true) :=
  (one_shot_deactivated_after_dispatch demoStore (fun _ _ => true) demoNow demoOnce
      demoUser "+15551234567" rfl (by decide) (by decide) (by decide)).1

/-- C1 counterexample: after a single payment failure (attempt 1 < 3) the
demo user's status is `payment_failed`; the gate actually wrapped around
creating, updating and deleting reminders and entries
(`check_subscription_status`) admits only `active` and `trialing`, so those
write operations are **denied** during the supposed grace period — the
derived rights are not `{read, write, export}`. -/
theorem grace_period_write_denied_cx :
    (getUser (handle_payment_failed demoStore (some "cus_1") (some "sub_1") 1).1 "u1").map
        (fun u => u.subscription_status) = some (some "payment_failed")
    ∧ (get_user_permissions
        (handle_payment_failed demoStore (some "cus_1") (some "sub_1") 1).1 "u1").map
        reminderWriteAllowed = some false := by
  refine ⟨by decide, by decide⟩

/-- C1 amended: a payment failure with `attempt_count < 3` leaves the
`permissions` field unchanged, so the permissions-based gate
(`require_permissions`) is unaffected; but reminder and entry
create/update/delete are gated by `check_subscription_status`, which admits
only `active` and `trialing` — a non-admin user whose status became
`payment_failed` is denied those writes already on the first failure, not
only on the third. -/
theorem grace_period_gate (u : UserDoc) (sid : Option String) (a : Int) (uid : String)
    (ha : a < 3) (hrole : u.role.getD "user" ≠ "admin") :
    (handle_payment_failed_update sid a u).permissions = u.permissions
    ∧ require_permissions_check "full"
        (mkUserContext uid (handle_payment_failed_update sid a u))
      = require_permissions_check "full" (mkUserContext uid u)
    ∧ reminderWriteAllowed (mkUserContext uid (handle_payment_failed_update sid a u))
        = false := by
  have hlt : ¬ (3 : Int) ≤ a := by omega
  have hupd : handle_payment_failed_update sid a u
      = { u with subscription_status := some "payment_failed", subscription_id := sid } := by
    unfold handle_payment_failed_update
    simp [hlt]
  have hb : (u.role.getD "user" == "admin") = false := by
    simpa using hrole
  refine ⟨by rw [hupd], ?_, ?_⟩
  · rw [hupd]
    rfl
  · rw [hupd]
    unfold reminderWriteAllowed check_subscription_status_check mkUserContext
    simp [hb]

/-- C1 witness: the amended theorem at the demo user after a first payment
failure. -/
theorem grace_period_gate_witness :
    reminderWriteAllowed
      (mkUserContext "u1" (handle_payment_failed_update (some "sub_1") 1 demoUser))
      = false :=
  (grace_period_gate demoUser (some "sub_1") 1 "u1" (by decide) (by decide)).2.2

/-- C8 counterexample: a payment-succeeded write mutates the stored user
record, and a scheduler dispatch mutates the stored reminder, yet in both
cases the `version` field of the document is unchanged — no mutation
increments a version and no compare-and-swap exists. -/
theorem version_not_incremented_cx :
    (handle_payment_succeeded demoStore (some "cus_1") (some "sub_2")).1 ≠ demoStore
    ∧ (getUser (handle_payment_succeeded demoStore (some "cus_1") (some "sub_2")).1
        "u1").map (fun u => u.version) = some demoUser.version
    ∧ (processNudge demoStore (fun _ _ => true) false demoNow demoDaily).1 ≠ demoDaily
    ∧ (processNudge demoStore (fun _ _ => true) false demoNow demoDaily).1.version
        = demoDaily.version := by
  refine ⟨by decide, by decide, by decide, by decide⟩

/-- C8 amended: every persisted mutation of a user or reminder record is an
unconditional Firestore `update` naming fixed fields: it never reads,
checks or increments a `version` field, so any such field keeps its value
across all the embedded writes. -/
theorem writes_leave_version_unchanged (u : UserDoc) (sid : Option String) (a : Int)
    (st : String) (users : UserStore) (send : String → String → Bool) (d : Bool)
    (now : DateTime) (n : Nudge) :
    (handle_trial_ending_update sid u).version = u.version
    ∧ (handle_payment_succeeded_update sid u).version = u.version
    ∧ (handle_payment_failed_update sid a u).version = u.version
    ∧ (sync_subscription_status_update st sid u).version = u.version
    ∧ (processNudge users send d now n).1.version = n.version := by
  refine ⟨rfl, rfl, ?_, rfl, ?_⟩
  · unfold handle_payment_failed_update
    by_cases h : (3 : Int) ≤ a <;> simp [h]
  · unfold processNudge
    cases getUser users n.user_id with
    | none => rfl
    | some v =>
      by_cases hp : strTruthy v.phone_number <;> by_cases hd : d <;>
        by_cases hr : n.rpt == "none" <;> simp [hp, hd, hr]

/-- C9: the payment-succeeded update writes only `subscription_status` and
`subscription_id` (all other fields, `permissions` included, are a frame);
hence a user downgraded to `permissions = read_only` by a final payment
failure still has `permissions = read_only` after a later successful
payment sets the status to `active`, and the permissions-based gate keeps
denying `full` access until `sync_subscription_status` recomputes the field
(to `full` for an active status). -/
theorem payment_succeeded_preserves_permissions (u : UserDoc) (sid sid2 : Option String)
    (a : Int) (uid : String) (ha : 3 ≤ a) (hrole : u.role.getD "user" ≠ "admin") :
    (∀ v : UserDoc, ∀ s : Option String,
        (handle_payment_succeeded_update s v).permissions = v.permissions
        ∧ (handle_payment_succeeded_update s v).role = v.role
        ∧ (handle_payment_succeeded_update s v).stripe_customer_id = v.stripe_customer_id
        ∧ (handle_payment_succeeded_update s v).phone_number = v.phone_number
        ∧ (handle_payment_succeeded_update s v).version = v.version)
    ∧ (handle_payment_succeeded_update sid2
        (handle_payment_failed_update sid a u)).subscription_status = some "active"
    ∧ (handle_payment_succeeded_update sid2
        (handle_payment_failed_update sid a u)).permissions = some "read_only"
    ∧ require_permissions_check "full"
        (mkUserContext uid
          (handle_payment_succeeded_update sid2 (handle_payment_failed_update sid a u)))
        = false
    ∧ (sync_subscription_status_update "active" sid2
        (handle_payment_succeeded_update sid2
          (handle_payment_failed_update sid a u))).permissions = some "full" := by
  have hupd : handle_payment_failed_update sid a u
      = { u with
          subscription_status := some "payment_failed_final",
          subscription_id := sid, permissions := some "read_only" } := by
    unfold handle_payment_failed_update
    simp [ha]
  have hb : (u.role.getD "user" == "admin") = false := by
    simpa using hrole
  refine ⟨fun v s => ⟨rfl, rfl, rfl, rfl, rfl⟩, rfl, ?_, ?_, rfl⟩
  · rw [hupd]
    rfl
  · rw [hupd]
    unfold require_permissions_check mkUserContext handle_payment_succeeded_update
    simp [hb]

/-- C9 witness: the scenario at the demo user — final failure then
successful payment. -/
theorem payment_succeeded_preserves_permissions_witness :
    (handle_payment_succeeded_update (some "sub_2")
      (handle_payment_failed_update (some "sub_1") 3 demoUser)).permissions
      = some "read_only" :=
  (payment_succeeded_preserves_permissions demoUser (some "sub_1") (some "sub_2") 3 "u1"
      (by decide) (by decide)).2.2.1

/-- C10: when the bearer token is absent or fails verification (`verify`
answers `none` on every token the request can produce), `authenticate`
falls back to the unverified `X-User-ID` header: the handler runs with the
permissions of the user that header names, and 401 is returned only when
the header is missing, falsy, or names no stored user. -/
theorem authenticate_falls_back_to_header (verify : String → Option (Option String))
    (store : UserStore) (r : HttpRequest)
    (hver : ∀ t, get_token_from_request r = some t → t ≠ "" → verify t = none) :
    authenticate verify store r =
      match r.xUserId with
      | some u =>
        if u == "" then .unauthorized
        else
          match get_user_permissions store u with
          | some ctx => .ok ctx
          | none => .unauthorized
      | none => .unauthorized := by
  unfold authenticate
  cases ht : get_token_from_request r with
  | none => rfl
  | some t =>
    by_cases he : t == ""
    · simp only [he, if_true]
    · have hvt : verify t = none := hver t ht (by simpa using he)
      simp only [he, Bool.false_eq_true, if_false, hvt]

/-- C10 witness: a request with an invalid bearer token and header `u1`
authenticates as the stored user `u1`. -/
theorem authenticate_falls_back_to_header_witness :
    authenticate (fun _ => none) demoStore demoReq = .ok (mkUserContext "u1" demoUser) := by
  rw [authenticate_falls_back_to_header (fun _ => none) demoStore demoReq
      (fun t ht hne => rfl)]
  decide
